import Mathlib

/-!
Shallow embedding of the OCPI server core of `elumobility/ocpi-python`:
the push dispatcher (`ocpi/core/push.py`), the command coordinator
(`ocpi/modules/commands/v_2_1_1/api/cpo.py`), the authorization verifier
(`ocpi/core/authentication/verifier.py`), the credentials authenticator
(`ocpi/core/authentication/authenticator.py`) and the exception-handling
middleware (`ocpi/main.py`).  Python dicts whose contents the claims never
inspect are abstracted as an association-list payload type `JData`; stateful
HTTP effects are modelled by explicit event traces and oracle functions
standing for the network.
-/

set_option autoImplicit false

namespace Ocpi

/-- OCPI module identifiers, from `ocpi.core.enums.ModuleID` (the enum
members used by the embedded code paths). -/
inductive ModuleID where
  | cdrs
  | locations
  | sessions
  | tariffs
  | tokens
  | commands
  | credentials_and_registration
  deriving DecidableEq, Repr

/-- OCPI roles, from `ocpi.core.enums.RoleEnum`. -/
inductive RoleEnum where
  | cpo
  | emsp
  | ptp
  deriving DecidableEq, Repr

/-- Supported protocol versions, from `ocpi.modules.versions.enums.VersionNumber`. -/
inductive VersionNumber where
  | v_2_1_1
  | v_2_2_1
  | v_2_3_0
  deriving DecidableEq, Repr

/-- The `.value` string of each `VersionNumber` member. -/
def VersionNumber.value : VersionNumber → String
  | .v_2_1_1 => "2.1.1"
  | .v_2_2_1 => "2.2.1"
  | .v_2_3_0 => "2.3.0"

/-- The deployment settings consumed by the embedded code
(`ocpi.core.config.settings`): country/party identity for push URLs, the
command poll-budget multiplier, and the auth escape hatches. -/
structure Settings where
  COUNTRY_CODE : String
  PARTY_ID : String
  COMMAND_AWAIT_TIME : Nat
  NO_AUTH : Bool
  deriving Repr

/-- Stand-in for a JSON object payload (a Python `dict`).  The claims
never look inside pushed payloads, so an association list of strings is
enough structure. -/
abbrev JData := List (String × String)

/-- Python truthiness of an optional string argument (`if evse_uid:`):
`None` and the empty string are both falsy. -/
def strTruthy : Option String → Bool
  | none => false
  | some s => s ≠ ""

/-- Python `s.startswith(p)`, as a computable prefix test on the
character lists. -/
def strStartsWith (s p : String) : Bool :=
  p.data.isPrefixOf s.data

/-- `client_url` from `ocpi/core/push.py`: CDRs pushes go to the base URL
unchanged; every other module appends `COUNTRY_CODE/PARTY_ID/object_id`
and, when truthy, `/evse_uid` and `/connector_id`. -/
def client_url (s : Settings) (module_id : ModuleID) (object_id : String)
    (base_url : String) (evse_uid : Option String := none)
    (connector_id : Option String := none) : String :=
  if module_id = ModuleID.cdrs then
    base_url
  else
    let url := base_url ++ s.COUNTRY_CODE ++ "/" ++ s.PARTY_ID ++ "/" ++ object_id
    let url := if strTruthy evse_uid then url ++ "/" ++ evse_uid.getD "" else url
    if strTruthy connector_id then url ++ "/" ++ connector_id.getD "" else url

/-- `client_method` from `ocpi/core/push.py`: CDRs always POST, others
PATCH when `use_patch` else PUT. -/
def client_method (module_id : ModuleID) (use_patch : Bool := false) : String :=
  if module_id = ModuleID.cdrs then "POST"
  else if use_patch then "PATCH" else "PUT"

/-- Result of `Authenticator.authenticate_credentials`: the empty-dict
marker for a Token-A match, or the echoed token for a Token-C match. -/
inductive CredMatch where
  | emptyCreds
  | echo (token : String)
  deriving DecidableEq, Repr

/-- Trace of one `authenticate_credentials` call: its return value plus
which token lists were fetched (`get_valid_token_a` / `get_valid_token_c`). -/
structure CredAuthTrace where
  result : Option CredMatch
  aFetched : Bool
  cFetched : Bool
  deriving DecidableEq, Repr

/-- `Authenticator.authenticate_credentials` from
`ocpi/core/authentication/authenticator.py`, with the `get_valid_token_a`
and `get_valid_token_c` oracles supplied as lists.  The code only fetches
the Token-A list when the token is truthy, and only fetches the Token-C
list when the Token-A membership test fails. -/
def authenticate_credentials (list_token_a list_token_c : List String)
    (auth_token : String) : CredAuthTrace :=
  if auth_token ≠ "" then
    if auth_token ∈ list_token_a then
      { result := some CredMatch.emptyCreds, aFetched := true, cFetched := false }
    else if auth_token ∈ list_token_c then
      { result := some (CredMatch.echo auth_token), aFetched := true, cFetched := true }
    else
      { result := none, aFetched := true, cFetched := true }
  else
    { result := none, aFetched := false, cFetched := false }

/-- `Authenticator.authenticate` from the same file: succeeds exactly when
the token is in the Token-C list, else raises `AuthorizationOCPIError`. -/
def authenticate (list_token_c : List String) (auth_token : String) : Bool :=
  decide (auth_token ∈ list_token_c)

/-- Helper for `pySplit`: walks the characters with an accumulator of the
current (reversed) word, emitting a word at each whitespace boundary. -/
def splitWsAux : List Char → List Char → List (List Char)
  | [], acc => if acc = [] then [] else [acc.reverse]
  | c :: cs, acc =>
    if c.isWhitespace then
      if acc = [] then splitWsAux cs []
      else acc.reverse :: splitWsAux cs []
    else splitWsAux cs (c :: acc)

/-- Python `str.split()` with no argument: split on runs of whitespace,
discarding empty pieces.  Used by the verifiers as `authorization.split()`. -/
def pySplit (s : String) : List String :=
  (splitWsAux s.data []).map fun l => String.mk l

/-- Outcome of a verifier call: pass, or `AuthorizationOCPIError` raised. -/
inductive AuthOutcome where
  | ok
  | authError
  deriving DecidableEq, Repr

/-- `AuthorizationVerifier.__call__` from
`ocpi/core/authentication/verifier.py`.  `decode_string_base64` is not in
the source snapshot, so it is passed in abstractly; modelled from the
spec: it Base64-decodes and fails (raises, here `none`) on malformed
input.  A decode failure falls back to the raw token; an unsplittable
header raises `AuthorizationOCPIError`; the final lookup succeeds exactly
when the (decoded or raw) token is a valid Token C. -/
def AuthorizationVerifier_call (version : VersionNumber) (s : Settings)
    (decode_string_base64 : String → Option String)
    (list_token_c : List String) (authorization : String) : AuthOutcome :=
  if s.NO_AUTH = true ∧ authorization = "" then AuthOutcome.ok
  else
    match (pySplit authorization).get? 1 with
    | none => AuthOutcome.authError
    | some tok =>
      let tok :=
        if strStartsWith version.value "2.2" = true ∨ strStartsWith version.value "2.3" = true then
          match decode_string_base64 tok with
          | some decoded => decoded
          | none => tok
        else tok
      if authenticate list_token_c tok then AuthOutcome.ok else AuthOutcome.authError

/-- Modelled from the spec: `CommandResponseType` of
`ocpi/modules/commands/v_2_1_1/schemas.py`, which is not in the source
snapshot; result values of a command response (spec section 3:
`result ∈ {ACCEPTED, REJECTED, TIMEOUT, ...}`). -/
inductive CommandResponseType where
  | accepted
  | rejected
  | timeout
  deriving DecidableEq, Repr

/-- The wire string of each `CommandResponseType` member. -/
def CommandResponseType.value : CommandResponseType → String
  | .accepted => "ACCEPTED"
  | .rejected => "REJECTED"
  | .timeout => "TIMEOUT"

/-- Modelled from the spec: the `CommandResponse` schema (a result plus
nothing else the embedded code reads). -/
structure CommandResponse where
  result : CommandResponseType
  deriving DecidableEq, Repr

/-- `CommandResponse.model_dump()` as a `JData` payload. -/
def dumpCommandResponse (c : CommandResponse) : JData :=
  [("result", c.result.value)]

/-- A response produced by a route handler or by the middleware:
the HTTP status plus either a plain detail body (`JSONResponse` with a
`detail` key) or an `OCPIResponse` envelope (`data` list and OCPI-level
`status_code`). -/
inductive RespBody where
  | detail (msg : String)
  | envelope (dataList : List JData) (status_code : Nat)
  deriving DecidableEq, Repr

/-- An HTTP response as the middleware sees it. -/
structure HandlerResponse where
  httpStatus : Nat
  body : RespBody
  deriving DecidableEq, Repr

/-- Exceptions distinguished by `ExceptionHandlerMiddleware.dispatch`. -/
inductive AppExn where
  | authorizationOCPIError
  | notFoundOCPIError
  | validationError
  | otherException
  deriving DecidableEq, Repr

/-- What handling a request produced: a response, or an escaping exception. -/
inductive HandlerOutcome where
  | ok (r : HandlerResponse)
  | exn (e : AppExn)
  deriving DecidableEq, Repr

/-- Modelled from the spec: `status.OCPI_3000_GENERIC_SERVER_ERROR` of the
missing `ocpi/core/status.py` — the generic server-error OCPI status code. -/
def OCPI_3000_GENERIC_SERVER_ERROR : Nat := 3000

/-- Modelled from the spec: `status.OCPI_1000_GENERIC_SUCESS_CODE` — the
generic success OCPI status code. -/
def OCPI_1000_GENERIC_SUCESS_CODE : Nat := 1000

/-- Modelled from the spec: `status.OCPI_2003_UNKNOWN_LOCATION` — the
OCPI "unknown location" status code. -/
def OCPI_2003_UNKNOWN_LOCATION : Nat := 2003

/-- `ExceptionHandlerMiddleware.dispatch` from `ocpi/main.py`: a response
passes through unchanged; `AuthorizationOCPIError` maps to HTTP 403,
`NotFoundOCPIError` to HTTP 404, `ValidationError` and any other
exception to a `JSONResponse` (default HTTP 200) holding an
`OCPIResponse` envelope with empty data and the generic server-error
status code. -/
def ExceptionHandlerMiddleware_dispatch (h : HandlerOutcome) : HandlerResponse :=
  match h with
  | .ok r => r
  | .exn .authorizationOCPIError =>
      { httpStatus := 403, body := RespBody.detail "AuthorizationOCPIError" }
  | .exn .notFoundOCPIError =>
      { httpStatus := 404, body := RespBody.detail "NotFoundOCPIError" }
  | .exn .validationError =>
      { httpStatus := 200, body := RespBody.envelope [] OCPI_3000_GENERIC_SERVER_ERROR }
  | .exn .otherException =>
      { httpStatus := 200, body := RespBody.envelope [] OCPI_3000_GENERIC_SERVER_ERROR }

/-- Modelled from the spec: the validated command payload
(`ReserveNow`/`StartSession`/`StopSession`/`UnlockConnector` of the
missing `ocpi/modules/commands/v_2_1_1/schemas.py`).  Only the fields the
handler reads are kept: `location_id` (`none` when the schema carries no
such attribute, so `hasattr(command_data, "location_id")` is false) and
`response_url`. -/
structure CommandData where
  location_id : Option String
  response_url : String
  deriving DecidableEq, Repr

/-- The storage backend as the command coordinator sees it:
`crud.get(locations, ...)` (`none` for a falsy/missing location),
`crud.do(send_command)` (`none` for a falsy response),
`crud.get(commands, 0, ...)` per poll attempt, and
`crud.do(get_client_token)`. -/
structure CommandCrud where
  getLocation : String → Option JData
  sendCommand : Option CommandResponse
  getCommandResult : Nat → Option CommandResponse
  get_client_token : String

/-- What `receive_command` produced: the HTTP response and whether the
poll+deliver background task was scheduled. -/
structure ReceiveCommandResult where
  response : HandlerResponse
  scheduled : Bool
  deriving DecidableEq, Repr

/-- `receive_command` from `ocpi/modules/commands/v_2_1_1/api/cpo.py`.
The body-validation outcome (`apply_pydantic_schema`) is passed as
`Except Unit CommandData`; a `ValidationError` is caught in the handler
and returned as an HTTP 422 `JSONResponse`.  A payload `location_id` that
the storage cannot resolve raises `NotFoundOCPIError`, caught below to a
REJECTED response with the unknown-location status.  The background task
is added only for a truthy dispatch response whose result is ACCEPTED and
a non-`None` auth token. -/
def receive_command (crud : CommandCrud)
    (adapter : CommandResponse → VersionNumber → CommandResponse)
    (auth_token : Option String)
    (body : Except Unit CommandData) : ReceiveCommandResult :=
  match body with
  | .error _ =>
      let resp : HandlerResponse :=
        { httpStatus := 422, body := RespBody.detail "validation errors" }
      { response := resp, scheduled := false }
  | .ok command_data =>
    let locationMissing : Bool :=
      match command_data.location_id with
      | some lid => (crud.getLocation lid).isNone
      | none => false
    let rejectedDump : JData :=
      dumpCommandResponse { result := CommandResponseType.rejected }
    if locationMissing then
      let resp : HandlerResponse :=
        { httpStatus := 200,
          body := RespBody.envelope [rejectedDump] OCPI_2003_UNKNOWN_LOCATION }
      { response := resp, scheduled := false }
    else
      match crud.sendCommand with
      | some command_response =>
          let dump : JData :=
            dumpCommandResponse (adapter command_response VersionNumber.v_2_1_1)
          let resp : HandlerResponse :=
            { httpStatus := 200,
              body := RespBody.envelope [dump] OCPI_1000_GENERIC_SUCESS_CODE }
          let sched : Bool :=
            decide (command_response.result = CommandResponseType.accepted)
              && decide (auth_token ≠ none)
          { response := resp, scheduled := sched }
      | none =>
          let resp : HandlerResponse :=
            { httpStatus := 200,
              body := RespBody.envelope [rejectedDump] OCPI_3000_GENERIC_SERVER_ERROR }
          { response := resp, scheduled := false }

/-- The poll loop of `send_command_result`: up to `budget` calls of
`crud.get(commands, ...)` starting at attempt index `i`; a truthy result
breaks, a falsy one runs `await sleep(2)` and continues.  Returns the
number of attempts made, the durations of the sleep calls in order, and
the final result. -/
def poll_loop (poll : Nat → Option CommandResponse) :
    Nat → Nat → Nat × List Nat × Option CommandResponse
  | 0, _ => (0, [], none)
  | b + 1, i =>
    match poll i with
    | some r => (1, [], some r)
    | none =>
      let rest := poll_loop poll b (i + 1)
      (rest.1 + 1, 2 :: rest.2.1, rest.2.2)

/-- Trace of one `send_command_result` background task: poll attempts
made, the durations of the sleep calls made, and the
`(response_url, body)` of each POST issued. -/
structure CommandTaskTrace where
  attempts : Nat
  sleeps : List Nat
  posted : List (String × JData)
  deriving DecidableEq, Repr

/-- `send_command_result` from `ocpi/modules/commands/v_2_1_1/api/cpo.py`:
polls the storage up to `30 * settings.COMMAND_AWAIT_TIME` times with a
2-unit sleep after each empty attempt; on exhaustion synthesizes a
TIMEOUT `CommandResponse`, otherwise adapts the polled result; then POSTs
the response once to `command_data.response_url`. -/
def send_command_result (s : Settings) (crud : CommandCrud)
    (adapter : CommandResponse → VersionNumber → CommandResponse)
    (command_data : CommandData) : CommandTaskTrace :=
  let r := poll_loop crud.getCommandResult (30 * s.COMMAND_AWAIT_TIME) 0
  let command_response :=
    match r.2.2 with
    | none => { result := CommandResponseType.timeout }
    | some res => adapter res VersionNumber.v_2_1_1
  { attempts := r.1, sleeps := r.2.1,
    posted := [(command_data.response_url, dumpCommandResponse command_response)] }

/-- Storage poll attempts performed in total while handling one inbound
command: the poll loop runs only inside the background task, which runs
only when `receive_command` scheduled it. -/
def command_poll_count (s : Settings) (crud : CommandCrud)
    (adapter : CommandResponse → VersionNumber → CommandResponse)
    (auth_token : Option String) (body : Except Unit CommandData) : Nat :=
  let r := receive_command crud adapter auth_token body
  match body with
  | .ok command_data =>
      if r.scheduled then (send_command_result s crud adapter command_data).attempts else 0
  | .error _ => 0

/-- The wire identifier string of each `ModuleID` member (the JSON
`identifier` field of discovered endpoints is compared against the module
str-enum). -/
def ModuleID.value : ModuleID → String
  | .cdrs => "cdrs"
  | .locations => "locations"
  | .sessions => "sessions"
  | .tariffs => "tariffs"
  | .tokens => "tokens"
  | .commands => "commands"
  | .credentials_and_registration => "credentials"

/-- A receiver of a push, from `ocpi.core.schemas.Receiver`. -/
structure Receiver where
  endpoints_url : String
  auth_token : String
  deriving DecidableEq, Repr

/-- A push request, from `ocpi.core.schemas.Push`. -/
structure Push where
  module_id : ModuleID
  object_id : String
  receivers : List Receiver
  deriving DecidableEq, Repr

/-- The `response` field of a `ReceiverResponse`: the parsed JSON body
for ordinary modules, the HTTP headers for the CDRs module. -/
inductive RespPayload where
  | json (d : JData)
  | headers (hs : List (String × String))
  deriving DecidableEq, Repr

/-- One receiver's result, from `ocpi.core.schemas.ReceiverResponse`. -/
structure ReceiverResponse where
  endpoints_url : String
  status_code : Nat
  response : RespPayload
  deriving DecidableEq, Repr

/-- The push result, from `ocpi.core.schemas.PushResponse`. -/
structure PushResponse where
  receiver_responses : List ReceiverResponse
  deriving DecidableEq, Repr

/-- A discovered endpoint as the push code reads it from JSON:
`identifier`, optional `role` (absent pre-2.2) and `url`. -/
structure Endpoint where
  identifier : String
  role : Option String
  url : String
  deriving DecidableEq, Repr

/-- An entry of a `/versions` list as read from JSON via `v.get(...)`. -/
structure VersionEntry where
  version : Option String
  url : Option String
  deriving DecidableEq, Repr

/-- The two tolerated shapes of `response.json()["data"]` on the
endpoints-discovery GET: a list of versions, or directly a VersionDetail. -/
inductive DiscoveryData where
  | versionsList (vs : List VersionEntry)
  | versionDetail (endpoints : List Endpoint)
  deriving DecidableEq, Repr

/-- An HTTP response as `httpx` hands it back: status code, JSON body
(`none` when `response.json()` raises) and headers. -/
structure HttpResponseM where
  status_code : Nat
  jsonData : Option JData
  headers : List (String × String)
  deriving DecidableEq, Repr

/-- The network's behaviour towards one receiver.  `Except Unit` errors
stand for an `httpx` exception (network error) or a failure reading the
response JSON, both of which raise in the Python code. -/
structure ReceiverWorld where
  discovery : Except Unit DiscoveryData
  details : Except Unit (List Endpoint)
  push : Except Unit HttpResponseM

/-- An outbound HTTP call issued by the push code. -/
inductive HttpEvent where
  | get (url : String) (authHeader : String)
  | send (method : String) (url : String) (authHeader : String) (body : JData)
  deriving DecidableEq, Repr

/-- An exception escaping `push_object`. -/
inductive PushError where
  | netError
  | valueError (msg : String)
  | jsonError
  deriving DecidableEq, Repr

/-- The version-specific adapter with the five `model_dump`-producing
converters `request_data` dispatches on. -/
structure Adapter where
  location_adapter : JData → VersionNumber → JData
  session_adapter : JData → VersionNumber → JData
  cdr_adapter : JData → VersionNumber → JData
  tariff_adapter : JData → VersionNumber → JData
  token_adapter : JData → VersionNumber → JData

/-- `request_data` from `ocpi/core/push.py`: run the stored object
through the module's adapter; modules outside the five known ones yield
an empty dict. -/
def request_data (module_id : ModuleID) (object_data : JData) (adapter : Adapter)
    (version : VersionNumber) : JData :=
  if module_id = ModuleID.locations then adapter.location_adapter object_data version
  else if module_id = ModuleID.sessions then adapter.session_adapter object_data version
  else if module_id = ModuleID.cdrs then adapter.cdr_adapter object_data version
  else if module_id = ModuleID.tariffs then adapter.tariff_adapter object_data version
  else if module_id = ModuleID.tokens then adapter.token_adapter object_data version
  else []

/-- The per-endpoint match test of the loop in `send_push_request`:
2.3/2.2 versions require the module identifier plus the RECEIVER role,
2.1 only the identifier, anything else never matches. -/
def endpointMatches (version : VersionNumber) (module_id : ModuleID)
    (endpoint : Endpoint) : Bool :=
  if strStartsWith version.value "2.3" then
    decide (endpoint.identifier = module_id.value)
      && decide (endpoint.role = some "RECEIVER")
  else if strStartsWith version.value "2.2" then
    decide (endpoint.identifier = module_id.value)
      && decide (endpoint.role = some "RECEIVER")
  else if strStartsWith version.value "2.1" then
    decide (endpoint.identifier = module_id.value)
  else false

/-- The `base_url` selection loop of `send_push_request`: starts from the
empty string and overwrites it with the URL of every matching endpoint
(so the last match wins, and no match leaves it empty). -/
def find_base_url (version : VersionNumber) (module_id : ModuleID)
    (endpoints : List Endpoint) : String :=
  endpoints.foldl
    (fun base_url endpoint =>
      if endpointMatches version module_id endpoint then endpoint.url else base_url)
    ""

/-- The version-URL lookup of `push_object` on a versions-list discovery
response: the first entry whose `version` equals the pushed version gives
its `url`; a missing entry, missing url or falsy (empty) url leaves
`version_url` falsy and the code raises `ValueError`. -/
def findVersionUrl (vs : List VersionEntry) (version : VersionNumber) : Option String :=
  match vs.find? (fun v => decide (v.version = some version.value)) with
  | none => none
  | some v =>
    match v.url with
    | none => none
    | some u => if u = "" then none else some u

/-- The storage backend's `crud.get` as the push code calls it:
module, role, object id, auth token, version. -/
abbrev PushCrud := ModuleID → RoleEnum → String → Option String → VersionNumber → JData

/-- The client auth header `push_object` builds per receiver: the raw
token for 2.0/2.1 versions, the Base64-encoded token otherwise, behind
the `Token ` prefix. -/
def pushAuthHeader (version : VersionNumber)
    (encode_string_base64 : String → String) (receiver : Receiver) : String :=
  "Token " ++
    (if strStartsWith version.value "2.1" || strStartsWith version.value "2.0" then
      receiver.auth_token
    else encode_string_base64 receiver.auth_token)

/-- The per-receiver loop body of `push_object` together with
`send_push_request`, iterated over the remaining receivers; `i` is the
index of the current receiver into the `world` oracle.  Returns the trace
of outbound calls made (also on abort) and either the accumulated
`ReceiverResponse`s or the exception that escaped. -/
def push_loop (version : VersionNumber) (module_id : ModuleID) (object_id : String)
    (crud : Option PushCrud) (adapter : Adapter) (auth_token : Option String)
    (use_patch : Bool) (partial_data : Option JData)
    (evse_uid connector_id : Option String) (s : Settings)
    (encode_string_base64 : String → String) (world : Nat → ReceiverWorld) :
    List Receiver → Nat → List HttpEvent × Except PushError (List ReceiverResponse)
  | [], _ => ([], Except.ok [])
  | receiver :: rest, i =>
    let client_auth_token := pushAuthHeader version encode_string_base64 receiver
    let discEv := HttpEvent.get receiver.endpoints_url client_auth_token
    match (world i).discovery with
    | .error _ => ([discEv], Except.error PushError.netError)
    | .ok discData =>
      let step : List HttpEvent × Except PushError (List Endpoint) :=
        match discData with
        | .versionDetail endpoints => ([], Except.ok endpoints)
        | .versionsList vs =>
          match findVersionUrl vs version with
          | none =>
            ([], Except.error (PushError.valueError
              ("Version " ++ version.value ++ " not found in versions list")))
          | some version_url =>
            match (world i).details with
            | .error _ =>
              ([HttpEvent.get version_url client_auth_token], Except.error PushError.netError)
            | .ok endpoints =>
              ([HttpEvent.get version_url client_auth_token], Except.ok endpoints)
      match step.2 with
      | .error e => (discEv :: step.1, Except.error e)
      | .ok endpoints =>
        let dataRes : Except PushError JData :=
          if use_patch then
            match partial_data with
            | none =>
              Except.error (PushError.valueError
                "partial_data is required when use_patch=True")
            | some d => Except.ok d
          else
            match crud with
            | none =>
              Except.error (PushError.valueError
                "crud is required when use_patch=False")
            | some c =>
              if module_id = ModuleID.tokens then
                Except.ok (c module_id RoleEnum.emsp object_id auth_token version)
              else
                Except.ok (c module_id RoleEnum.cpo object_id auth_token version)
        match dataRes with
        | .error e => (discEv :: step.1, Except.error e)
        | .ok object_data =>
          let data :=
            if use_patch then object_data
            else request_data module_id object_data adapter version
          let base_url := find_base_url version module_id endpoints
          let sendEv := HttpEvent.send (client_method module_id use_patch)
            (client_url s module_id object_id base_url evse_uid connector_id)
            client_auth_token data
          match (world i).push with
          | .error _ =>
            (discEv :: step.1 ++ [sendEv], Except.error PushError.netError)
          | .ok resp =>
            let rrRes : Except PushError ReceiverResponse :=
              if module_id = ModuleID.cdrs then
                Except.ok ⟨receiver.endpoints_url, resp.status_code,
                  RespPayload.headers resp.headers⟩
              else
                match resp.jsonData with
                | none => Except.error PushError.jsonError
                | some j =>
                  Except.ok ⟨receiver.endpoints_url, resp.status_code,
                    RespPayload.json j⟩
            match rrRes with
            | .error e => (discEv :: step.1 ++ [sendEv], Except.error e)
            | .ok rr =>
              let restRes := push_loop version module_id object_id crud adapter
                auth_token use_patch partial_data evse_uid connector_id s
                encode_string_base64 world rest (i + 1)
              (discEv :: step.1 ++ [sendEv] ++ restRes.1,
                match restRes.2 with
                | .ok rs => Except.ok (rr :: rs)
                | .error e => Except.error e)

/-- `push_object` from `ocpi/core/push.py`, over the network oracle
`world` (the behaviour towards the `i`-th receiver) and with the missing
`encode_string_base64` helper passed in abstractly.  Returns the trace of
outbound HTTP calls and either the `PushResponse` or the exception that
escaped the (entirely unguarded) per-receiver loop. -/
def push_object (version : VersionNumber) (push : Push) (crud : Option PushCrud)
    (adapter : Adapter) (auth_token : Option String)
    (use_patch : Bool) (partial_data : Option JData)
    (evse_uid connector_id : Option String) (s : Settings)
    (encode_string_base64 : String → String) (world : Nat → ReceiverWorld) :
    List HttpEvent × Except PushError PushResponse :=
  let r := push_loop version push.module_id push.object_id crud adapter auth_token
    use_patch partial_data evse_uid connector_id s encode_string_base64 world
    push.receivers 0
  (r.1,
    match r.2 with
    | .ok rs => Except.ok { receiver_responses := rs }
    | .error e => Except.error e)

/-- Extraction of the endpoint list a receiver's discovery responses
resolve to, if the shape-tolerant lookup of `push_object` succeeds. -/
def discoveryEndpoints (version : VersionNumber) (w : ReceiverWorld) :
    Option (List Endpoint) :=
  match w.discovery with
  | .error _ => none
  | .ok (.versionDetail eps) => some eps
  | .ok (.versionsList vs) =>
    match findVersionUrl vs version with
    | none => none
    | some _ =>
      match w.details with
      | .error _ => none
      | .ok eps => some eps

/-- All outbound calls towards one receiver return HTTP responses (no
raised network error), and the delivery response is readable for the
module: non-CDR responses carry a parseable JSON body. -/
def receiverDelivers (module_id : ModuleID) (version : VersionNumber)
    (w : ReceiverWorld) : Prop :=
  (∃ eps, discoveryEndpoints version w = some eps)
    ∧ ∃ resp, w.push = Except.ok resp
        ∧ (module_id = ModuleID.cdrs ∨ ∃ j, resp.jsonData = some j)

/-- A storage stub for concrete instantiations: no locations, no dispatch
response, never a command result. -/
def trivialCommandCrud : CommandCrud where
  getLocation := fun _ => none
  sendCommand := none
  getCommandResult := fun _ => none
  get_client_token := "ctoken"

/-- A dispatch-accepting storage stub whose location lookups succeed but
whose command results never arrive. -/
def acceptingCommandCrud : CommandCrud where
  getLocation := fun _ => some [("id", "LOC1")]
  sendCommand := some { result := CommandResponseType.accepted }
  getCommandResult := fun _ => none
  get_client_token := "ctoken"

/-- The identity command-response adapter (what `BaseAdapter` does to an
already version-shaped response). -/
def idCommandAdapter : CommandResponse → VersionNumber → CommandResponse :=
  fun c _ => c

/-- An adapter stub passing payloads through unchanged. -/
def idAdapter : Adapter where
  location_adapter := fun d _ => d
  session_adapter := fun d _ => d
  cdr_adapter := fun d _ => d
  tariff_adapter := fun d _ => d
  token_adapter := fun d _ => d

/-- Sample deployment settings for concrete instantiations. -/
def sampleSettings : Settings where
  COUNTRY_CODE := "DE"
  PARTY_ID := "ABC"
  COMMAND_AWAIT_TIME := 1
  NO_AUTH := false

/-- A storage stub returning a fixed object payload on every get. -/
def constPushCrud : PushCrud := fun _ _ _ _ _ => [("id", "OBJ1")]

/-- A discovered locations RECEIVER endpoint used in concrete worlds. -/
def epLocations : Endpoint where
  identifier := "locations"
  role := some "RECEIVER"
  url := "https://emsp.example/ocpi/locations/"

/-- A receiver world answering every call successfully. -/
def wAllOk : ReceiverWorld where
  discovery := Except.ok (DiscoveryData.versionDetail [epLocations])
  details := Except.ok [epLocations]
  push := Except.ok { status_code := 200, jsonData := some [], headers := [] }

/-- A receiver world whose delivery call raises a network error. -/
def wPushNetErr : ReceiverWorld where
  discovery := Except.ok (DiscoveryData.versionDetail [epLocations])
  details := Except.ok [epLocations]
  push := Except.error ()

/-- A receiver world advertising no endpoints, whose delivery call then
raises (as an attempt on the resulting relative URL does). -/
def wNoEndpoints : ReceiverWorld where
  discovery := Except.ok (DiscoveryData.versionDetail [])
  details := Except.ok []
  push := Except.error ()

/-- A receiver world whose delivery call answers 404 with a JSON body. -/
def wPush404 : ReceiverWorld where
  discovery := Except.ok (DiscoveryData.versionDetail [epLocations])
  details := Except.ok [epLocations]
  push := Except.ok { status_code := 404, jsonData := some [], headers := [] }

/-- A receiver world advertising only a SENDER-role locations endpoint,
whose delivery call then raises. -/
def wSenderOnly : ReceiverWorld where
  discovery := Except.ok (DiscoveryData.versionDetail
    [{ identifier := "locations", role := some "SENDER", url := "https://y/" }])
  details := Except.ok []
  push := Except.error ()

/-- Claim C6: for every push, the CDRs module targets the receiver base
URL unchanged with method POST regardless of the patch flag, and every
other module targets `base_url ++ country_code/party_id/object_id` with
optional `/evse_uid` and `/connector_id` segments, with method PATCH when
`use_patch` and PUT otherwise. -/
theorem cdrs_url_method_exception (s : Settings) (m : ModuleID)
    (object_id base_url : String) (evse_uid connector_id : Option String)
    (hevse : evse_uid ≠ some "") (hconn : connector_id ≠ some "") :
    (m = ModuleID.cdrs →
      client_url s m object_id base_url evse_uid connector_id = base_url
        ∧ ∀ up : Bool, client_method m up = "POST")
    ∧ (m ≠ ModuleID.cdrs →
      client_url s m object_id base_url evse_uid connector_id
          = base_url ++ s.COUNTRY_CODE ++ "/" ++ s.PARTY_ID ++ "/" ++ object_id
            ++ (match evse_uid with | some e => "/" ++ e | none => "")
            ++ (match connector_id with | some c => "/" ++ c | none => "")
        ∧ ∀ up : Bool, client_method m up = (if up then "PATCH" else "PUT")) := by
  constructor
  · intro h
    subst h
    exact ⟨by simp [client_url], fun up => by simp [client_method]⟩
  · intro h
    refine ⟨?_, fun up => by simp [client_method, h]⟩
    rcases evse_uid with _ | e
    · rcases connector_id with _ | c
      · simp [client_url, strTruthy, h]
      · have hc : c ≠ "" := fun hc => hconn (by rw [hc])
        simp [client_url, strTruthy, h, hc, String.append_assoc]
    · have he : e ≠ "" := fun he => hevse (by rw [he])
      rcases connector_id with _ | c
      · simp [client_url, strTruthy, h, he, String.append_assoc]
      · have hc : c ≠ "" := fun hc => hconn (by rw [hc])
        simp [client_url, strTruthy, h, he, hc, String.append_assoc]

/-- Witness for cdrs_url_method_exception: pushing `locations` object
LOC1 to base `https://x/loc/` with country DE and party ABC targets
`https://x/loc/DE/ABC/LOC1`. -/
theorem cdrs_url_method_exception_witness :
    client_url sampleSettings ModuleID.locations "LOC1" "https://x/loc/" none none
      = "https://x/loc/DE/ABC/LOC1" := by
  have h := cdrs_url_method_exception sampleSettings ModuleID.locations "LOC1"
    "https://x/loc/" none none (by simp) (by simp)
  have h2 := (h.2 (by simp)).1
  simpa [sampleSettings] using h2

/-- Claim C10: `authenticate_credentials` tests Token-A membership first,
so a (nonempty, per its own empty-token clause) token in both lists
yields the empty-credentials marker without the Token-C list even being
fetched, and the empty token returns None without fetching either list. -/
theorem token_a_checked_first (A C : List String) (t : String)
    (hne : t ≠ "") (hA : t ∈ A) (hC : t ∈ C) :
    (authenticate_credentials A C t).result = some CredMatch.emptyCreds
    ∧ (authenticate_credentials A C t).cFetched = false
    ∧ authenticate_credentials A C "" =
        { result := none, aFetched := false, cFetched := false } := by
  refine ⟨?_, ?_, ?_⟩ <;> simp [authenticate_credentials, hne, hA]

/-- Witness for token_a_checked_first with the token `dual` registered as
both Token A and Token C. -/
theorem token_a_checked_first_witness :
    (authenticate_credentials ["dual"] ["dual", "c1"] "dual").result
      = some CredMatch.emptyCreds :=
  (token_a_checked_first ["dual"] ["dual", "c1"] "dual" (by simp)
    (by simp) (by simp)).1

/-- The poll loop on a storage that never returns a result performs every
budgeted attempt, sleeping 2 units each time, and ends with no result. -/
theorem poll_loop_never (poll : Nat → Option CommandResponse)
    (h : ∀ i, poll i = none) :
    ∀ b i, poll_loop poll b i = (b, List.replicate b 2, none) := by
  intro b
  induction b with
  | zero => intro i; rfl
  | succ n ih =>
    intro i
    simp [poll_loop, h i, ih (i + 1), List.replicate_succ]

/-- Claim C3: when the storage poll never yields a result, the background
task makes exactly `30 * COMMAND_AWAIT_TIME` poll attempts, sleeping 2
time units after each empty attempt, and then delivers a TIMEOUT command
response via a single POST to the command's response_url. -/
theorem timeout_after_poll_budget (s : Settings) (crud : CommandCrud)
    (adapter : CommandResponse → VersionNumber → CommandResponse)
    (command_data : CommandData)
    (h : ∀ i, crud.getCommandResult i = none) :
    send_command_result s crud adapter command_data =
      { attempts := 30 * s.COMMAND_AWAIT_TIME,
        sleeps := List.replicate (30 * s.COMMAND_AWAIT_TIME) 2,
        posted := [(command_data.response_url, [("result", "TIMEOUT")])] } := by
  simp [send_command_result, poll_loop_never crud.getCommandResult h,
    dumpCommandResponse, CommandResponseType.value]

/-- Witness for timeout_after_poll_budget at COMMAND_AWAIT_TIME = 1 and a
never-resolving storage: 30 attempts, 30 sleeps of 2, one TIMEOUT POST. -/
theorem timeout_after_poll_budget_witness :
    send_command_result sampleSettings trivialCommandCrud idCommandAdapter
        { location_id := none, response_url := "https://emsp.example/resp" } =
      { attempts := 30, sleeps := List.replicate 30 2,
        posted := [("https://emsp.example/resp", [("result", "TIMEOUT")])] } :=
  timeout_after_poll_budget sampleSettings trivialCommandCrud idCommandAdapter
    { location_id := none, response_url := "https://emsp.example/resp" }
    (fun _ => rfl)

/-- Claim C4: the poll+deliver background task is scheduled only when the
dispatch outcome is a truthy ACCEPTED response (which also requires a
usable auth token and, when the payload references a location, that it
resolved), and the task itself issues exactly one result POST; hence at
most one CommandResult is ever delivered per command. -/
theorem at_most_one_result_delivery (s : Settings) (crud : CommandCrud)
    (adapter : CommandResponse → VersionNumber → CommandResponse)
    (auth_token : Option String) (command_data : CommandData)
    (hsched : (receive_command crud adapter auth_token
        (Except.ok command_data)).scheduled = true) :
    (∃ cr, crud.sendCommand = some cr ∧ cr.result = CommandResponseType.accepted)
    ∧ auth_token ≠ none
    ∧ (∀ lid, command_data.location_id = some lid → crud.getLocation lid ≠ none)
    ∧ (send_command_result s crud adapter command_data).posted.length = 1 := by
  have hposted : (send_command_result s crud adapter command_data).posted.length = 1 := by
    simp [send_command_result]
  rcases hloc : command_data.location_id with _ | lid
  · rcases hsc : crud.sendCommand with _ | cr
    · simp [receive_command, hloc, hsc] at hsched
    · simp [receive_command, hloc, hsc] at hsched
      refine ⟨⟨cr, rfl, hsched.1⟩, hsched.2, ?_, hposted⟩
      intro lid2 h2
      cases h2
  · by_cases hg : crud.getLocation lid = none
    · simp [receive_command, hloc, hg] at hsched
    · have hg2 : (crud.getLocation lid).isNone = false := by
        rcases h2 : crud.getLocation lid with _ | v
        · exact absurd h2 hg
        · rfl
      rcases hsc : crud.sendCommand with _ | cr
      · simp [receive_command, hloc, hsc, hg2] at hsched
      · simp [receive_command, hloc, hsc, hg2] at hsched
        refine ⟨⟨cr, rfl, hsched.1⟩, hsched.2, ?_, hposted⟩
        intro lid2 h2
        injection h2 with h2
        subst h2
        exact hg

/-- Witness for at_most_one_result_delivery: an accepted dispatch with a
resolvable location schedules the task, which POSTs exactly once. -/
theorem at_most_one_result_delivery_witness :
    (send_command_result sampleSettings acceptingCommandCrud idCommandAdapter
      { location_id := some "LOC1", response_url := "https://emsp.example/resp" }
      ).posted.length = 1 :=
  (at_most_one_result_delivery sampleSettings acceptingCommandCrud idCommandAdapter
    (some "tok")
    { location_id := some "LOC1", response_url := "https://emsp.example/resp" }
    rfl).2.2.2

/-- Claim C5: a command whose payload references a location the storage
cannot resolve is answered with a REJECTED command response wrapped in an
OCPIResponse with the unknown-location status code at HTTP 200 (no
transport error), no background task is scheduled, and zero poll attempts
occur. -/
theorem unknown_location_rejects (s : Settings) (crud : CommandCrud)
    (adapter : CommandResponse → VersionNumber → CommandResponse)
    (auth_token : Option String) (command_data : CommandData) (lid : String)
    (hloc : command_data.location_id = some lid)
    (hmiss : crud.getLocation lid = none) :
    receive_command crud adapter auth_token (Except.ok command_data) =
      ⟨⟨200, RespBody.envelope [[("result", "REJECTED")]]
        OCPI_2003_UNKNOWN_LOCATION⟩, false⟩
    ∧ command_poll_count s crud adapter auth_token (Except.ok command_data) = 0 := by
  have h1 : receive_command crud adapter auth_token (Except.ok command_data) =
      ⟨⟨200, RespBody.envelope [[("result", "REJECTED")]]
        OCPI_2003_UNKNOWN_LOCATION⟩, false⟩ := by
    simp [receive_command, hloc, hmiss, dumpCommandResponse, CommandResponseType.value]
  exact ⟨h1, by simp [command_poll_count, h1]⟩

/-- Witness for unknown_location_rejects at a storage with no locations. -/
theorem unknown_location_rejects_witness :
    command_poll_count sampleSettings trivialCommandCrud idCommandAdapter
      (some "tok")
      (Except.ok { location_id := some "L404", response_url := "https://e/resp" })
      = 0 :=
  (unknown_location_rejects sampleSettings trivialCommandCrud idCommandAdapter
    (some "tok")
    { location_id := some "L404", response_url := "https://e/resp" }
    "L404" rfl rfl).2

/-- Claim C8 (amended): an escaping AuthorizationOCPIError maps to HTTP
403, an escaping NotFoundOCPIError to HTTP 404 and an escaping
ValidationError to an HTTP-200 OCPIResponse envelope with the generic
server-error status code; but the commands receive handler catches body
validation errors itself and answers HTTP 422 with a plain detail body,
so a malformed command body never produces the HTTP-200 envelope. -/
theorem exception_status_mapping (crud : CommandCrud)
    (adapter : CommandResponse → VersionNumber → CommandResponse)
    (auth_token : Option String) :
    ExceptionHandlerMiddleware_dispatch
        (HandlerOutcome.exn AppExn.authorizationOCPIError)
        = ⟨403, RespBody.detail "AuthorizationOCPIError"⟩
    ∧ ExceptionHandlerMiddleware_dispatch
        (HandlerOutcome.exn AppExn.notFoundOCPIError)
        = ⟨404, RespBody.detail "NotFoundOCPIError"⟩
    ∧ ExceptionHandlerMiddleware_dispatch
        (HandlerOutcome.exn AppExn.validationError)
        = ⟨200, RespBody.envelope [] OCPI_3000_GENERIC_SERVER_ERROR⟩
    ∧ (receive_command crud adapter auth_token (Except.error ())).response
        = ⟨422, RespBody.detail "validation errors"⟩ :=
  ⟨rfl, rfl, rfl, rfl⟩

/-- Claim C8 counterexample: a malformed command body passes through the
middleware as HTTP 422 with a plain detail body, not the HTTP-200
OCPIResponse envelope the claim asserts for every inbound request with a
malformed body. -/
theorem validation_error_responds_422 :
    ExceptionHandlerMiddleware_dispatch (HandlerOutcome.ok
        (receive_command trivialCommandCrud idCommandAdapter (some "tok")
          (Except.error ())).response)
      = ⟨422, RespBody.detail "validation errors"⟩ :=
  rfl

/-- A whitespace-free nonempty character run is returned by the splitter
as a single word appended to the pending accumulator. -/
theorem splitWsAux_no_ws (v : List Char) (hws : ∀ c ∈ v, ¬ c.isWhitespace = true) :
    v ≠ [] → ∀ acc : List Char, splitWsAux v acc = [acc.reverse ++ v] := by
  induction v with
  | nil => intro h; cases h rfl
  | cons c cs ih =>
    intro _ acc
    have hcw : ¬ c.isWhitespace = true := hws c (by simp)
    by_cases hcs : cs = []
    · subst hcs
      simp [splitWsAux, hcw]
    · have hrec := ih (fun x hx => hws x (by simp [hx])) hcs (c :: acc)
      simp [splitWsAux, hcw, hrec]

/-- Python `"Token <v>".split()` yields `["Token", v]` for a nonempty,
whitespace-free `v`. -/
theorem pySplit_token_header (v : String) (hne : v ≠ "")
    (hws : ∀ c ∈ v.data, ¬ c.isWhitespace = true) :
    pySplit ("Token " ++ v) = ["Token", v] := by
  have hvd : v.data ≠ [] := by
    intro h
    apply hne
    cases v with
    | mk data => simp at h; simp [h]
  have hdata : ("Token " ++ v).data
      = 'T' :: 'o' :: 'k' :: 'e' :: 'n' :: ' ' :: v.data := rfl
  unfold pySplit
  rw [hdata]
  have hrest := splitWsAux_no_ws v.data hws hvd []
  simp [splitWsAux, hrest]

/-- Claim C7: on a version ≥ 2.2 endpoint, when the value after the
`Token ` prefix is not decodable Base64, the verifier falls back to the
raw value and the request authenticates exactly when that raw value is a
registered Token C; the decode failure itself is never an error outcome. -/
theorem base64_decode_fallback (version : VersionNumber) (s : Settings)
    (decode_string_base64 : String → Option String)
    (list_token_c : List String) (v : String)
    (hver : version = VersionNumber.v_2_2_1 ∨ version = VersionNumber.v_2_3_0)
    (hne : v ≠ "") (hws : ∀ c ∈ v.data, ¬ c.isWhitespace = true)
    (hdec : decode_string_base64 v = none) :
    (AuthorizationVerifier_call version s decode_string_base64 list_token_c
        ("Token " ++ v) = AuthOutcome.ok)
      ↔ v ∈ list_token_c := by
  have hsplit := pySplit_token_header v hne hws
  have hheader : ("Token " ++ v) ≠ "" := by
    intro h
    have h2 : ("Token " ++ v).data = [] := by rw [h]
    exact absurd h2 (by simp [String.data_append])
  unfold AuthorizationVerifier_call
  rw [if_neg (by rintro ⟨h1, h2⟩; exact hheader h2)]
  rw [hsplit]
  rcases hver with h | h <;> subst h <;>
    simp [VersionNumber.value, hdec, authenticate]

/-- Witness for base64_decode_fallback: on a 2.2.1 endpoint with a
decoder that rejects `abc`, the header `Token abc` authenticates because
the raw value `abc` is itself a registered token. -/
theorem base64_decode_fallback_witness :
    AuthorizationVerifier_call VersionNumber.v_2_2_1 sampleSettings
        (fun _ => none) ["abc"] ("Token " ++ "abc") = AuthOutcome.ok :=
  (base64_decode_fallback VersionNumber.v_2_2_1 sampleSettings
    (fun _ => none) ["abc"] "abc" (Or.inl rfl) (by simp)
    (by decide) rfl).mpr (by simp)

/-- Claim C9: `push_object` raises ValueError for a PATCH push without
partial_data and for a full-update push without crud, and both checks sit
inside the per-receiver loop after that receiver's endpoint-discovery
GET, so with a nonempty receiver list the first discovery call is issued
before the ValueError escapes. -/
theorem precondition_checks_after_discovery (version : VersionNumber)
    (module_id : ModuleID) (object_id : String) (crud : Option PushCrud)
    (adapter : Adapter) (auth_token : Option String)
    (partial_data : Option JData) (evse_uid connector_id : Option String)
    (s : Settings) (encode_string_base64 : String → String)
    (world : Nat → ReceiverWorld) (r : Receiver) (rest : List Receiver)
    (eps : List Endpoint)
    (hdisc : (world 0).discovery = Except.ok (DiscoveryData.versionDetail eps)) :
    (partial_data = none →
      push_object version ⟨module_id, object_id, r :: rest⟩ crud adapter
          auth_token true partial_data evse_uid connector_id s
          encode_string_base64 world
        = ([HttpEvent.get r.endpoints_url
              (pushAuthHeader version encode_string_base64 r)],
           Except.error (PushError.valueError
             "partial_data is required when use_patch=True")))
    ∧ (crud = none →
      push_object version ⟨module_id, object_id, r :: rest⟩ crud adapter
          auth_token false partial_data evse_uid connector_id s
          encode_string_base64 world
        = ([HttpEvent.get r.endpoints_url
              (pushAuthHeader version encode_string_base64 r)],
           Except.error (PushError.valueError
             "crud is required when use_patch=False"))) := by
  constructor
  · intro hpd
    subst hpd
    simp [push_object, push_loop, hdisc]
  · intro hcrud
    subst hcrud
    simp [push_object, push_loop, hdisc]

/-- Witness for precondition_checks_after_discovery: one receiver, a
successful discovery, use_patch without partial_data: the trace holds the
discovery GET and the result is the ValueError. -/
theorem precondition_checks_after_discovery_witness :
    push_object VersionNumber.v_2_1_1
        ⟨ModuleID.locations, "LOC1",
          [⟨"https://emsp.example/ocpi/versions", "tokC"⟩]⟩
        (some constPushCrud) idAdapter (some "tok") true none none none
        sampleSettings id (fun _ => wAllOk)
      = ([HttpEvent.get "https://emsp.example/ocpi/versions" "Token tokC"],
         Except.error (PushError.valueError
           "partial_data is required when use_patch=True")) := by
  have h := (precondition_checks_after_discovery VersionNumber.v_2_1_1
    ModuleID.locations "LOC1" (some constPushCrud) idAdapter (some "tok")
    none none none sampleSettings id (fun _ => wAllOk)
    ⟨"https://emsp.example/ocpi/versions", "tokC"⟩ [] [epLocations] rfl).1 rfl
  simpa [pushAuthHeader, VersionNumber.value] using h

/-- When no endpoint matches, the selection loop of `send_push_request`
leaves the base URL empty. -/
theorem find_base_url_no_match (version : VersionNumber) (module_id : ModuleID)
    (eps : List Endpoint)
    (h : ∀ ep ∈ eps, endpointMatches version module_id ep = false) :
    find_base_url version module_id eps = "" := by
  induction eps with
  | nil => rfl
  | cons e es ih =>
    have he : endpointMatches version module_id e = false := h e (by simp)
    have hstep : find_base_url version module_id (e :: es)
        = find_base_url version module_id es := by
      unfold find_base_url
      simp [he]
    rw [hstep]
    exact ih fun x hx => h x (by simp [hx])

/-- When every receiver from index `i` on delivers (discovery resolves,
the delivery call returns a response, and non-CDR responses parse), the
push loop collects one `ReceiverResponse` per receiver recording each
delivery's status code. -/
theorem push_loop_all_deliver (version : VersionNumber) (module_id : ModuleID)
    (object_id : String) (crudf : PushCrud) (adapter : Adapter)
    (auth_token : Option String) (use_patch : Bool) (partial_data : Option JData)
    (evse_uid connector_id : Option String) (s : Settings)
    (encode_string_base64 : String → String) (world : Nat → ReceiverWorld)
    (hpd : use_patch = true → ∃ d, partial_data = some d) :
    ∀ (receivers : List Receiver) (i : Nat),
      (∀ j, j < receivers.length →
          receiverDelivers module_id version (world (i + j))) →
      ∃ rs, (push_loop version module_id object_id (some crudf) adapter auth_token
          use_patch partial_data evse_uid connector_id s encode_string_base64
          world receivers i).2 = Except.ok rs
        ∧ rs.length = receivers.length
        ∧ ∀ j, j < receivers.length →
            ∃ resp rr rcv, receivers.get? j = some rcv
              ∧ rs.get? j = some rr
              ∧ (world (i + j)).push = Except.ok resp
              ∧ rr.status_code = resp.status_code
              ∧ rr.endpoints_url = rcv.endpoints_url := by
  intro receivers
  induction receivers with
  | nil =>
    intro i _
    exact ⟨[], rfl, rfl, fun j hj => absurd hj (by simp)⟩
  | cons r rest ih =>
    intro i h
    have h0 : receiverDelivers module_id version (world i) := by
      have := h 0 (by simp)
      rwa [Nat.add_zero] at this
    obtain ⟨⟨eps, heps⟩, resp, hpush, hmod⟩ := h0
    obtain ⟨rs', hok', hlen', hget'⟩ := ih (i + 1) (by
      intro j hj
      have := h (j + 1) (by simpa using Nat.succ_lt_succ hj)
      rwa [show i + (j + 1) = i + 1 + j by omega] at this)
    have hdata : ∃ d : JData,
        (if use_patch = true then
          match partial_data with
          | none =>
            (Except.error (PushError.valueError
              "partial_data is required when use_patch=True") : Except PushError JData)
          | some d => Except.ok d
        else
          if module_id = ModuleID.tokens then
            Except.ok (crudf module_id RoleEnum.emsp object_id auth_token version)
          else
            Except.ok (crudf module_id RoleEnum.cpo object_id auth_token version))
          = Except.ok d := by
      by_cases hup : use_patch = true
      · obtain ⟨d, hpdd⟩ := hpd hup
        exact ⟨d, by simp [hup, hpdd]⟩
      · by_cases htok : module_id = ModuleID.tokens
        · exact ⟨crudf module_id RoleEnum.emsp object_id auth_token version,
            by simp [hup, htok]⟩
        · exact ⟨crudf module_id RoleEnum.cpo object_id auth_token version,
            by simp [hup, htok]⟩
    obtain ⟨object_data, hdr⟩ := hdata
    have hrr : ∃ rr : ReceiverResponse,
        (if module_id = ModuleID.cdrs then
          Except.ok (⟨r.endpoints_url, resp.status_code,
            RespPayload.headers resp.headers⟩ : ReceiverResponse)
        else
          match resp.jsonData with
          | none => Except.error PushError.jsonError
          | some j =>
            Except.ok (⟨r.endpoints_url, resp.status_code,
              RespPayload.json j⟩ : ReceiverResponse))
          = Except.ok rr
        ∧ rr.status_code = resp.status_code
        ∧ rr.endpoints_url = r.endpoints_url := by
      by_cases hc : module_id = ModuleID.cdrs
      · exact ⟨⟨r.endpoints_url, resp.status_code, RespPayload.headers resp.headers⟩,
          by simp [hc], rfl, rfl⟩
      · rcases hmod with hcdrs | ⟨jd, hjd⟩
        · exact absurd hcdrs hc
        · exact ⟨⟨r.endpoints_url, resp.status_code, RespPayload.json jd⟩,
            by simp [hc, hjd], rfl, rfl⟩
    obtain ⟨rr, hrreq, hrrsc, hrru⟩ := hrr
    rcases hd : (world i).discovery with u | dd
    · simp only [discoveryEndpoints, hd] at heps
      exact Option.noConfusion heps
    · rcases dd with vs | eps2
      · rcases hvu : findVersionUrl vs version with _ | vurl
        · simp only [discoveryEndpoints, hd, hvu] at heps
          exact Option.noConfusion heps
        · rcases hdet : (world i).details with u | eps3
          · simp only [discoveryEndpoints, hd, hvu, hdet] at heps
            exact Option.noConfusion heps
          · refine ⟨rr :: rs', ?_, by simp [hlen'], ?_⟩
            · simp only [push_loop, hd, hvu, hdet, hdr, hpush, hrreq, hok']
            · intro j hj
              match j with
              | 0 =>
                exact ⟨resp, rr, r, rfl, rfl, by rwa [Nat.add_zero], hrrsc, hrru⟩
              | j + 1 =>
                obtain ⟨resp', rr', rcv', h1, h2, h3, h4, h5⟩ :=
                  hget' j (by simpa using Nat.lt_of_succ_lt_succ hj)
                exact ⟨resp', rr', rcv', h1, h2,
                  by rwa [show i + (j + 1) = i + 1 + j by omega], h4, h5⟩
      · refine ⟨rr :: rs', ?_, by simp [hlen'], ?_⟩
        · simp only [push_loop, hd, hdr, hpush, hrreq, hok']
        · intro j hj
          match j with
          | 0 =>
            exact ⟨resp, rr, r, rfl, rfl, by rwa [Nat.add_zero], hrrsc, hrru⟩
          | j + 1 =>
            obtain ⟨resp', rr', rcv', h1, h2, h3, h4, h5⟩ :=
              hget' j (by simpa using Nat.lt_of_succ_lt_succ hj)
            exact ⟨resp', rr', rcv', h1, h2,
              by rwa [show i + (j + 1) = i + 1 + j by omega], h4, h5⟩

/-- Claim C1 counterexample: with two receivers, a network error on the
first receiver's delivery call escapes `push_object` as an exception: the
result is an error, not a two-entry `PushResponse`, and the trace shows
the second receiver was never contacted. -/
theorem push_network_error_escapes :
    push_object VersionNumber.v_2_1_1
        ⟨ModuleID.locations, "LOC1",
          [⟨"https://a.example/versions", "t1"⟩,
           ⟨"https://b.example/versions", "t2"⟩]⟩
        (some constPushCrud) idAdapter (some "tok") false none none none
        sampleSettings id
        (fun i => if i = 0 then wPushNetErr else wAllOk)
      = ([HttpEvent.get "https://a.example/versions" "Token t1",
          HttpEvent.send "PUT"
            "https://emsp.example/ocpi/locations/DE/ABC/LOC1"
            "Token t1" [("id", "OBJ1")]],
         Except.error PushError.netError) := by
  rfl

/-- Claim C1 (amended): when every receiver's outbound calls return HTTP
responses (no raised network error) and each non-CDR delivery response
body parses as JSON, `push_object` returns exactly one `ReceiverResponse`
per receiver, each recording that receiver's own delivery status code —
non-2xx statuses included; a network error raised by any outbound call
instead escapes `push_object` as an exception and aborts the remaining
receivers. -/
theorem push_records_statuses_per_receiver (version : VersionNumber)
    (push : Push) (crudf : PushCrud) (adapter : Adapter)
    (auth_token : Option String) (use_patch : Bool) (partial_data : Option JData)
    (evse_uid connector_id : Option String) (s : Settings)
    (encode_string_base64 : String → String) (world : Nat → ReceiverWorld)
    (hpd : use_patch = true → ∃ d, partial_data = some d)
    (hall : ∀ j, j < push.receivers.length →
        receiverDelivers push.module_id version (world j)) :
    ∃ rs, (push_object version push (some crudf) adapter auth_token use_patch
        partial_data evse_uid connector_id s encode_string_base64 world).2
        = Except.ok ⟨rs⟩
      ∧ rs.length = push.receivers.length
      ∧ ∀ j, j < push.receivers.length →
          ∃ resp rr rcv, push.receivers.get? j = some rcv
            ∧ rs.get? j = some rr
            ∧ (world j).push = Except.ok resp
            ∧ rr.status_code = resp.status_code
            ∧ rr.endpoints_url = rcv.endpoints_url := by
  obtain ⟨rs, h1, h2, h3⟩ := push_loop_all_deliver version push.module_id
    push.object_id crudf adapter auth_token use_patch partial_data evse_uid
    connector_id s encode_string_base64 world hpd push.receivers 0
    (by intro j hj; simpa using hall j hj)
  exact ⟨rs, by simp [push_object, h1], h2, by simpa using h3⟩

/-- Witness for push_records_statuses_per_receiver: two receivers where
the second delivery answers 404; both entries are returned, the first
with status 200 and the second with status 404. -/
theorem push_records_statuses_per_receiver_witness :
    ∃ rs, (push_object VersionNumber.v_2_1_1
        ⟨ModuleID.locations, "LOC1",
          [⟨"https://a.example/versions", "t1"⟩,
           ⟨"https://b.example/versions", "t2"⟩]⟩
        (some constPushCrud) idAdapter (some "tok") false none none none
        sampleSettings id
        (fun i => if i = 0 then wAllOk else wPush404)).2
        = Except.ok ⟨rs⟩
      ∧ rs.length = 2
      ∧ ∀ j, j < 2 →
          ∃ resp rr rcv,
            ([⟨"https://a.example/versions", "t1"⟩,
              (⟨"https://b.example/versions", "t2"⟩ : Receiver)]).get? j = some rcv
            ∧ rs.get? j = some rr
            ∧ ((fun i => if i = 0 then wAllOk else wPush404) j).push = Except.ok resp
            ∧ rr.status_code = resp.status_code
            ∧ rr.endpoints_url = rcv.endpoints_url :=
  push_records_statuses_per_receiver VersionNumber.v_2_1_1
    ⟨ModuleID.locations, "LOC1",
      [⟨"https://a.example/versions", "t1"⟩,
       ⟨"https://b.example/versions", "t2"⟩]⟩
    constPushCrud idAdapter (some "tok") false none none none
    sampleSettings id (fun i => if i = 0 then wAllOk else wPush404)
    (fun h => absurd h (by simp))
    (by
      intro j hj
      match j with
      | 0 =>
        exact ⟨⟨[epLocations], rfl⟩,
          ⟨{ status_code := 200, jsonData := some [], headers := [] }, rfl,
            Or.inr ⟨[], rfl⟩⟩⟩
      | 1 =>
        exact ⟨⟨[epLocations], rfl⟩,
          ⟨{ status_code := 404, jsonData := some [], headers := [] }, rfl,
            Or.inr ⟨[], rfl⟩⟩⟩)

/-- Claim C2 counterexample: a receiver whose discovered endpoints
contain no entry for the pushed module does not fail with any
endpoint-not-found error: the delivery request is attempted anyway
against the id-only relative URL and, when it raises (as a relative-URL
request does), the exception aborts the whole batch, so the second
receiver is never processed. -/
theorem push_missing_endpoint_no_dedicated_error :
    push_object VersionNumber.v_2_1_1
        ⟨ModuleID.locations, "LOC1",
          [⟨"https://c.example/versions", "t1"⟩,
           ⟨"https://d.example/versions", "t2"⟩]⟩
        (some constPushCrud) idAdapter (some "tok") false none none none
        sampleSettings id
        (fun i => if i = 0 then wNoEndpoints else wAllOk)
      = ([HttpEvent.get "https://c.example/versions" "Token t1",
          HttpEvent.send "PUT" "DE/ABC/LOC1" "Token t1" [("id", "OBJ1")]],
         Except.error PushError.netError) := by
  rfl

/-- Claim C2 (amended): when a receiver's discovered endpoints contain no
entry matching the module, no endpoint-not-found failure is produced:
`base_url` stays empty and the delivery is attempted against the URL
built on the empty base; if that attempt raises a network error, the
exception aborts the whole push and the remaining receivers are not
processed. -/
theorem push_missing_endpoint_attempts_empty_base (version : VersionNumber)
    (module_id : ModuleID) (object_id : String) (crudf : PushCrud)
    (adapter : Adapter) (auth_token : Option String)
    (evse_uid connector_id : Option String) (s : Settings)
    (encode_string_base64 : String → String) (world : Nat → ReceiverWorld)
    (r : Receiver) (rest : List Receiver) (eps : List Endpoint)
    (hdisc : (world 0).discovery = Except.ok (DiscoveryData.versionDetail eps))
    (hnomatch : ∀ ep ∈ eps, endpointMatches version module_id ep = false)
    (hfail : (world 0).push = Except.error ()) :
    push_object version ⟨module_id, object_id, r :: rest⟩ (some crudf) adapter
        auth_token false none evse_uid connector_id s encode_string_base64 world
      = ([HttpEvent.get r.endpoints_url
            (pushAuthHeader version encode_string_base64 r),
          HttpEvent.send (client_method module_id false)
            (client_url s module_id object_id "" evse_uid connector_id)
            (pushAuthHeader version encode_string_base64 r)
            (request_data module_id
              (if module_id = ModuleID.tokens then
                crudf module_id RoleEnum.emsp object_id auth_token version
              else crudf module_id RoleEnum.cpo object_id auth_token version)
              adapter version)],
         Except.error PushError.netError) := by
  have hbase : find_base_url version module_id eps = "" :=
    find_base_url_no_match version module_id eps hnomatch
  by_cases htok : module_id = ModuleID.tokens
  · subst htok
    simp [push_object, push_loop, hdisc, hfail, hbase]
  · simp [push_object, push_loop, hdisc, hfail, hbase, htok]

/-- Witness for push_missing_endpoint_attempts_empty_base: on a 2.3.0
push, an endpoint list advertising only the SENDER role for the module
matches nothing, the delivery is attempted with an empty base URL, and
its network failure is the escaping result. -/
theorem push_missing_endpoint_attempts_empty_base_witness :
    push_object VersionNumber.v_2_3_0
        ⟨ModuleID.locations, "LOC9",
          [⟨"https://e.example/versions", "t9"⟩]⟩
        (some constPushCrud) idAdapter (some "tok") false none none none
        sampleSettings id (fun _ => wSenderOnly)
      = ([HttpEvent.get "https://e.example/versions" "Token t9",
          HttpEvent.send "PUT" "DE/ABC/LOC9" "Token t9" [("id", "OBJ1")]],
         Except.error PushError.netError) := by
  have h := push_missing_endpoint_attempts_empty_base VersionNumber.v_2_3_0
    ModuleID.locations "LOC9" constPushCrud idAdapter (some "tok") none none
    sampleSettings id (fun _ => wSenderOnly)
    ⟨"https://e.example/versions", "t9"⟩ []
    [{ identifier := "locations", role := some "SENDER", url := "https://y/" }]
    rfl (by decide) rfl
  simpa [pushAuthHeader, VersionNumber.value, client_method, client_url,
    sampleSettings, request_data, constPushCrud, idAdapter] using h

end Ocpi
